import Mathlib

/-!
Shallow embedding of the request-transport core of the finwise-python SDK.

The embedded code is:
  - src/finwise/exceptions.py : the exception taxonomy and raise_for_status
    (the status classifier);
  - src/finwise/_http.py : HTTPTransport.request (the retry loop) and
    HTTPTransport.close;
  - src/finwise/_config.py : ClientConfig.

Modelling conventions:
  - JSON documents are association lists of string keys to scalar JSON
    values (the core only ever reads the scalar-valued keys message, code
    and retryAfter, and otherwise treats documents as opaque data).
  - Raising an exception is modelled by returning an Outcome.exc value;
    each Python exception class and its constructor arguments appear as a
    constructor of Exc.
  - The network is modelled by an oracle mapping the attempt index to the
    result of that physical attempt (a connection error, a timeout, or a
    response with status code, optional Retry-After header and optional
    parsed JSON body; a body of none models an empty response.content).
  - time.sleep and the sent Request-Id header are modelled by a Trace that
    records, in order, the sleep durations, the number of network attempts
    performed and the Request-Id header value sent on each attempt.
  - uuid.uuid4 is nondeterministic, so the generated request id is a
    parameter of the embedded request function; the code generates it once
    before the attempt loop and the embedding threads that single value.
  - the loop for attempt in range(max_retries + 1) is embedded as fuel
    recursion starting with fuel max_retries + 1; fuel 0 is the fall
    through after the loop (the raise last_exception / RuntimeError lines).
-/

namespace FinWise

/-- Scalar JSON values. The core reads documents only through dict.get on
scalar-valued keys, so nested arrays and objects are not needed. -/
inductive Json where
  | null
  | bool (b : Bool)
  | num (n : Int)
  | str (s : String)
deriving DecidableEq, Repr

/-- A parsed JSON document (Python dict), as an association list. -/
abbrev Doc := List (String × Json)

/-- Python dict.get(k): the value at the first matching key, if any. -/
def dictGet (d : Doc) (k : String) : Option Json :=
  (d.find? (fun kv => kv.1 == k)).map (fun kv => kv.2)

/-- Python dict.get(k, v): dictGet with a default. -/
def dictGetD (d : Doc) (k : String) (v : Json) : Json :=
  (dictGet d k).getD v

/-- The FinWiseAPIError subclass raised by the classifier, one tag per
Python exception class (generic is the FinWiseAPIError base class). -/
inductive APIKind where
  | validation
  | authentication
  | permissionDenied
  | notFound
  | conflict
  | rateLimit
  | serverError
  | generic
deriving DecidableEq, Repr

/-- The transport-level httpx exceptions caught by the retry loop
(httpx.ConnectError and httpx.TimeoutException), carrying their message. -/
inductive NetErr where
  | connect (msg : String)
  | timeout (msg : String)
deriving DecidableEq, Repr

/-- An exception escaping HTTPTransport.request.
  - api: a FinWiseAPIError (or subclass per APIKind) with its attributes;
    retryAfter is the retry_after attribute (only ever set on rateLimit).
  - connectionError / timeoutError: FinWiseConnectionError and
    FinWiseTimeoutError (message, request_id).
  - valueError: the ValueError raised by int() on a non-numeric
    Retry-After header; carries the offending literal.
  - rethrown: the raise last_exception fall-through after the loop.
  - runtimeError: the RuntimeError fall-through after the loop, and the
    httpx RuntimeError for a request on a closed client. -/
inductive Exc where
  | api (kind : APIKind) (message : Json) (statusCode : Int)
      (requestId : Option String) (responseBody : Doc)
      (errorCode : Option Json) (retryAfter : Option Json)
  | connectionError (message : String) (requestId : Option String)
  | timeoutError (message : String) (requestId : Option String)
  | valueError (literal : String)
  | rethrown (e : NetErr)
  | runtimeError (message : String)
deriving DecidableEq, Repr

/-- ClientConfig (src/finwise/_config.py). max_retries is validated
nonnegative by post-init, hence a Nat; timeout is validated positive and
is only used inside the timeout error message (a float in the source,
rendered here from a Nat). -/
structure ClientConfig where
  apiKey : String
  baseUrl : String
  timeout : Nat
  maxRetries : Nat
deriving DecidableEq, Repr

/-- httpx Response.is_success: 2xx status. -/
def isSuccessStatus (status : Int) : Bool :=
  200 ≤ status && status < 300

/-- Digits of an ASCII decimal numeral, as a Nat; none when empty or when
any character is not a digit. -/
def digitsToNat (cs : List Char) : Option Nat :=
  if cs.isEmpty then none
  else if cs.all (fun c => c.isDigit) then
    some (cs.foldl (fun acc c => acc * 10 + (c.toNat - 48)) 0)
  else none

/-- ASCII whitespace stripped by Python int() around the numeral. -/
def isSpaceChar (c : Char) : Bool :=
  c = ' ' || c = '\t' || c = '\n' || c = '\r' || c = '\x0b' || c = '\x0c'

/-- Characters of the string with surrounding whitespace stripped. -/
def stripChars (s : String) : List Char :=
  ((s.toList.dropWhile isSpaceChar).reverse.dropWhile isSpaceChar).reverse

/-- Python int(s) on a string: surrounding whitespace is stripped, an
optional sign precedes an ASCII decimal numeral; none models the
ValueError raised on anything else. (Numeric-separator underscores and
non-ASCII digits accepted by CPython are not modelled; no claim and no
counterexample below depends on such inputs.) -/
def pyInt (s : String) : Option Int :=
  match stripChars s with
  | '+' :: rest => (digitsToNat rest).map (fun n => (n : Int))
  | '-' :: rest => (digitsToNat rest).map (fun n => -(n : Int))
  | rest => (digitsToNat rest).map (fun n => (n : Int))

/-- raise_for_status (src/finwise/exceptions.py): picks the exception
class from the status code (the exception_map dict, then the 5xx range
check, then the FinWiseAPIError fallback); message and error_code are
read from the body with dict.get; the 429 class additionally receives
retry_after read from the retryAfter key of the body. Returns the
exception it raises. -/
def raise_for_status (statusCode : Int) (responseBody : Doc)
    (requestId : Option String) : Exc :=
  let message := dictGetD responseBody "message" (Json.str "Unknown error")
  let errorCode := dictGet responseBody "code"
  if statusCode = 400 ∨ statusCode = 422 then
    .api .validation message statusCode requestId responseBody errorCode none
  else if statusCode = 401 then
    .api .authentication message statusCode requestId responseBody errorCode none
  else if statusCode = 403 then
    .api .permissionDenied message statusCode requestId responseBody errorCode none
  else if statusCode = 404 then
    .api .notFound message statusCode requestId responseBody errorCode none
  else if statusCode = 409 then
    .api .conflict message statusCode requestId responseBody errorCode none
  else if statusCode = 429 then
    .api .rateLimit message statusCode requestId responseBody errorCode
      (dictGet responseBody "retryAfter")
  else if 500 ≤ statusCode ∧ statusCode < 600 then
    .api .serverError message statusCode requestId responseBody errorCode none
  else
    .api .generic message statusCode requestId responseBody errorCode none

/-- The result of one physical network attempt, as seen by the retry
loop: an httpx transport exception, or a response with status code, the
Retry-After header (none when absent) and the parsed JSON body (none
models empty response.content, which the code replaces by the empty
dict). -/
inductive AttemptResult where
  | netErr (e : NetErr)
  | response (status : Int) (retryAfterHeader : Option String)
      (content : Option Doc)
deriving DecidableEq, Repr

/-- Observable side effects of one logical call: number of network
attempts performed, the time.sleep durations in order, and the
Request-Id header value sent on each attempt, in order. -/
structure Trace where
  attempts : Nat
  sleeps : List Int
  sentIds : List String
deriving DecidableEq, Repr

/-- The single outcome of a logical call: the returned parsed body, or
the one exception that escapes. -/
inductive Outcome where
  | ok (body : Doc)
  | exc (e : Exc)
deriving DecidableEq, Repr

/-- The attempt loop of HTTPTransport.request (src/finwise/_http.py,
lines 93-164), one fuel step per loop iteration. attempt is the loop
variable, fuel the number of iterations left (the top-level call uses
max_retries + 1), lastExc the last_exception local. Fuel 0 is the code
after the loop: raise last_exception when set, else RuntimeError. -/
def requestLoop (cfg : ClientConfig) (rid : String)
    (oracle : Nat → AttemptResult) :
    Nat → Nat → Option NetErr → Outcome × Trace
  | _, 0, lastExc =>
    match lastExc with
    | some e => (.exc (.rethrown e), ⟨0, [], []⟩)
    | none => (.exc (.runtimeError "Unexpected state in request retry loop"), ⟨0, [], []⟩)
  | attempt, fuel + 1, lastExc =>
    match oracle attempt with
    | .response status hdr content =>
      if status = 429 then
        match pyInt (hdr.getD "1") with
        | none => (.exc (.valueError (hdr.getD "1")), ⟨1, [], [rid]⟩)
        | some retryAfter =>
          let waitTime := min retryAfter ((2 : Int) ^ attempt)
          if attempt < cfg.maxRetries then
            let rest := requestLoop cfg rid oracle (attempt + 1) fuel lastExc
            (rest.1, ⟨rest.2.attempts + 1, waitTime :: rest.2.sleeps, rid :: rest.2.sentIds⟩)
          else
            (.exc (.api .rateLimit (.str "Rate limit exceeded") 429 (some rid)
              (content.getD []) none (some (.num retryAfter))), ⟨1, [], [rid]⟩)
      else if 500 ≤ status ∧ attempt < cfg.maxRetries then
        let rest := requestLoop cfg rid oracle (attempt + 1) fuel lastExc
        (rest.1, ⟨rest.2.attempts + 1, ((2 : Int) ^ attempt) :: rest.2.sleeps, rid :: rest.2.sentIds⟩)
      else
        let body := content.getD []
        if isSuccessStatus status then
          (.ok body, ⟨1, [], [rid]⟩)
        else
          (.exc (raise_for_status status body (some rid)), ⟨1, [], [rid]⟩)
    | .netErr (.connect msg) =>
      if attempt < cfg.maxRetries then
        let rest := requestLoop cfg rid oracle (attempt + 1) fuel (some (.connect msg))
        (rest.1, ⟨rest.2.attempts + 1, ((2 : Int) ^ attempt) :: rest.2.sleeps, rid :: rest.2.sentIds⟩)
      else
        (.exc (.connectionError ("Failed to connect to " ++ cfg.baseUrl ++ ": " ++ msg)
          (some rid)), ⟨1, [], [rid]⟩)
    | .netErr (.timeout msg) =>
      if attempt < cfg.maxRetries then
        let rest := requestLoop cfg rid oracle (attempt + 1) fuel (some (.timeout msg))
        (rest.1, ⟨rest.2.attempts + 1, ((2 : Int) ^ attempt) :: rest.2.sleeps, rid :: rest.2.sentIds⟩)
      else
        (.exc (.timeoutError ("Request timed out after " ++ toString cfg.timeout ++ "s")
          (some rid)), ⟨1, [], [rid]⟩)

/-- HTTPTransport.request: generate the request id once, then run the
attempt loop for max_retries + 1 iterations starting at attempt 0 with
last_exception = None. -/
def request (cfg : ClientConfig) (rid : String)
    (oracle : Nat → AttemptResult) : Outcome × Trace :=
  requestLoop cfg rid oracle 0 (cfg.maxRetries + 1) none

/-- An exception is a classified failure when it is one of the typed
failure descriptions of the taxonomy (a FinWiseAPIError subclass, a
FinWiseConnectionError or a FinWiseTimeoutError); a ValueError, a
rethrown httpx exception and a RuntimeError are not. -/
def Exc.isClassifiedExc : Exc → Bool
  | .api _ _ _ _ _ _ _ => true
  | .connectionError _ _ => true
  | .timeoutError _ _ => true
  | _ => false

/-- The request_id attribute of a classified exception. -/
def Exc.ridOf : Exc → Option String
  | .api _ _ _ r _ _ _ => r
  | .connectionError _ r => r
  | .timeoutError _ r => r
  | _ => none

/-- The outcome comes from the fall-through code after the attempt loop
(raise last_exception or RuntimeError at lines 161-164). -/
def Outcome.isFallbackOutcome : Outcome → Bool
  | .exc (.rethrown _) => true
  | .exc (.runtimeError _) => true
  | _ => false

/-- The outcome is a returned response document. -/
def Outcome.isOkDoc : Outcome → Bool
  | .ok _ => true
  | _ => false

/-- The outcome is exactly one classified failure. -/
def Outcome.isClassifiedFailure : Outcome → Bool
  | .ok _ => false
  | .exc e => e.isClassifiedExc

/-- Every 429 response produced by the oracle carries a Retry-After
header that int() accepts (or no header at all, which the code replaces
by the numeral 1). Under this condition the ValueError path is dead. -/
def ParsesHints (oracle : Nat → AttemptResult) : Prop :=
  ∀ i hdr c, oracle i = .response 429 hdr c → (pyInt (hdr.getD "1")).isSome

/-- The exponential backoff sleeps 2 ^ attempt, 2 ^ (attempt + 1), ...
performed by n consecutive retried attempts starting at a given attempt
index. -/
def backoffSleeps (attempt : Nat) : Nat → List Int
  | 0 => []
  | n + 1 => ((2 : Int) ^ attempt) :: backoffSleeps (attempt + 1) n

/-- The rate-limit sleeps min(hint, 2 ^ attempt), min(hint, 2 ^ (attempt + 1)),
... performed by n consecutive 429-retried attempts starting at a given
attempt index, where hints gives the parsed Retry-After hint of each
attempt. -/
def hintSleeps (hints : Nat → Int) (attempt : Nat) : Nat → List Int
  | 0 => []
  | n + 1 => (min (hints attempt) ((2 : Int) ^ attempt)) :: hintSleeps hints (attempt + 1) n

/-- The classified failure (when any) of an outcome carries the given
request id in its request_id attribute. -/
def Outcome.ridConsistent (o : Outcome) (rid : String) : Bool :=
  match o with
  | .ok _ => true
  | .exc e => if e.isClassifiedExc then e.ridOf == some rid else true

/-- Modelled from the spec: the underlying connection pool (the httpx
client) is third-party code not present in this repository; per the
resource-lifecycle contract of the spec it is acquired open at
transport construction, released by close, and a request on a released
client is rejected rather than silently reusing the closed resource.
The state is whether the client has been closed. -/
structure TransportState where
  clientClosed : Bool
deriving DecidableEq, Repr

/-- HTTPTransport construction: the client starts open. -/
def newTransport : TransportState := ⟨false⟩

/-- Modelled from the spec: closing the httpx client releases the
connection pool when it is still open. Returns the new state and the
number of pool releases performed by this call. -/
def httpxClose (st : TransportState) : TransportState × Nat :=
  if st.clientClosed then (st, 0) else (⟨true⟩, 1)

/-- HTTPTransport.close (src/finwise/_http.py lines 198-200): closes the
underlying httpx client. -/
def transportClose (st : TransportState) : TransportState × Nat :=
  httpxClose st

/-- HTTPTransport.request seen through the transport state. Modelled
from the spec: a request on a closed client is rejected by the client
(a RuntimeError) before any network attempt; on an open client the
attempt loop runs as embedded above. -/
def transportRequest (st : TransportState) (cfg : ClientConfig) (rid : String)
    (oracle : Nat → AttemptResult) : Outcome × Trace :=
  if st.clientClosed then
    (.exc (.runtimeError "Cannot send a request, as the client has been closed."),
     ⟨0, [], []⟩)
  else
    request cfg rid oracle

/-- The status to kind table of section 4.3 of the spec, written from
the words of the spec, to be compared with raise_for_status. -/
def classifierKindSpec (status : Int) : APIKind :=
  if status = 400 ∨ status = 422 then .validation
  else if status = 401 then .authentication
  else if status = 403 then .permissionDenied
  else if status = 404 then .notFound
  else if status = 409 then .conflict
  else if status = 429 then .rateLimit
  else if 500 ≤ status ∧ status < 600 then .serverError
  else .generic

/-- Fixture configuration for the concrete witnesses: retry budget 2. -/
def cfgW : ClientConfig := ⟨"test-key", "https://api.finwiseapp.io", 30, 2⟩

/-- Fixture configuration with retry budget 0. -/
def cfgW0 : ClientConfig := ⟨"test-key", "https://api.finwiseapp.io", 30, 0⟩

/-- Fixture response document for the concrete witnesses. -/
def docW : Doc :=
  [("message", .str "slow down"), ("code", .str "E42"), ("retryAfter", .num 7)]

/-- Fixture oracle: every attempt observes 429 with Retry-After 5. -/
def oracle429W : Nat → AttemptResult := fun _ => .response 429 (some "5") (some docW)

/-- Fixture oracle: every attempt observes 503. -/
def oracle503W : Nat → AttemptResult := fun _ => .response 503 none (some docW)

/-- Fixture oracle: every attempt observes 404. -/
def oracle404W : Nat → AttemptResult := fun _ => .response 404 none (some docW)

/-- Fixture oracle: every attempt observes 200. -/
def oracle200W : Nat → AttemptResult := fun _ => .response 200 none (some docW)

/-- Fixture oracle: every attempt observes 429 with a non-numeric
Retry-After header. -/
def oracleBadHdrW : Nat → AttemptResult := fun _ => .response 429 (some "abc") none

/-- Fixture oracle: every attempt observes 429 with no Retry-After
header. -/
def oracleNoHdrW : Nat → AttemptResult := fun _ => .response 429 none (some docW)

/-- Fixture oracle: a 429 with Retry-After 9 on attempt 0, then 200. -/
def oracleMixW : Nat → AttemptResult := fun i =>
  if i = 0 then .response 429 (some "9") none else .response 200 none (some docW)

section StepLemmas

variable (cfg : ClientConfig) (rid : String) (oracle : Nat → AttemptResult)

/-- One loop step, terminal 429: on the last attempt a 429 with a
parseable hint raises RateLimitError with the fixed message and the
header-derived retry_after. -/
theorem loop429Terminal (attempt fuel : Nat) (lastExc : Option NetErr)
    (hdr : Option String) (c : Option Doc) (h : Int)
    (hres : oracle attempt = .response 429 hdr c)
    (hparse : pyInt (hdr.getD "1") = some h)
    (hnlt : ¬ attempt < cfg.maxRetries) :
    requestLoop cfg rid oracle attempt (fuel + 1) lastExc =
      (.exc (.api .rateLimit (.str "Rate limit exceeded") 429 (some rid) (c.getD []) none
        (some (.num h))), ⟨1, [], [rid]⟩) := by
  simp [requestLoop, hres, hparse, hnlt]

/-- One loop step, retried 429: sleep min(hint, 2 ^ attempt) and
continue with the next attempt. -/
theorem loop429Step (attempt fuel : Nat) (lastExc : Option NetErr)
    (hdr : Option String) (c : Option Doc) (h : Int)
    (hres : oracle attempt = .response 429 hdr c)
    (hparse : pyInt (hdr.getD "1") = some h)
    (hlt : attempt < cfg.maxRetries) :
    requestLoop cfg rid oracle attempt (fuel + 1) lastExc =
      ((requestLoop cfg rid oracle (attempt + 1) fuel lastExc).1,
       ⟨(requestLoop cfg rid oracle (attempt + 1) fuel lastExc).2.attempts + 1,
        (min h ((2 : Int) ^ attempt)) :: (requestLoop cfg rid oracle (attempt + 1) fuel lastExc).2.sleeps,
        rid :: (requestLoop cfg rid oracle (attempt + 1) fuel lastExc).2.sentIds⟩) := by
  simp [requestLoop, hres, hparse, hlt]

/-- One loop step, 429 with a non-numeric Retry-After header: int()
raises ValueError immediately, at any attempt index. -/
theorem loop429ValueError (attempt fuel : Nat) (lastExc : Option NetErr)
    (hdr : Option String) (c : Option Doc)
    (hres : oracle attempt = .response 429 hdr c)
    (hparse : pyInt (hdr.getD "1") = none) :
    requestLoop cfg rid oracle attempt (fuel + 1) lastExc =
      (.exc (.valueError (hdr.getD "1")), ⟨1, [], [rid]⟩) := by
  simp [requestLoop, hres, hparse]

/-- One loop step, retried server error: a 5xx with attempts remaining
sleeps 2 ^ attempt and continues; no classification is produced. -/
theorem loopServerRetryStep (attempt fuel : Nat) (lastExc : Option NetErr)
    (s : Int) (hdr : Option String) (c : Option Doc)
    (hres : oracle attempt = .response s hdr c)
    (h429 : s ≠ 429) (h5 : 500 ≤ s) (hlt : attempt < cfg.maxRetries) :
    requestLoop cfg rid oracle attempt (fuel + 1) lastExc =
      ((requestLoop cfg rid oracle (attempt + 1) fuel lastExc).1,
       ⟨(requestLoop cfg rid oracle (attempt + 1) fuel lastExc).2.attempts + 1,
        ((2 : Int) ^ attempt) :: (requestLoop cfg rid oracle (attempt + 1) fuel lastExc).2.sleeps,
        rid :: (requestLoop cfg rid oracle (attempt + 1) fuel lastExc).2.sentIds⟩) := by
  simp [requestLoop, hres, h429, h5, hlt]

/-- One loop step, success: a 2xx response returns its parsed body
immediately. -/
theorem loopSuccessStep (attempt fuel : Nat) (lastExc : Option NetErr)
    (s : Int) (hdr : Option String) (c : Option Doc)
    (hres : oracle attempt = .response s hdr c)
    (hs : isSuccessStatus s = true) :
    requestLoop cfg rid oracle attempt (fuel + 1) lastExc =
      (.ok (c.getD []), ⟨1, [], [rid]⟩) := by
  have hrange : 200 ≤ s ∧ s < 300 := by
    simpa [isSuccessStatus] using hs
  have h429 : ¬ s = 429 := by omega
  have h5 : ¬ (500 ≤ s ∧ attempt < cfg.maxRetries) := by
    intro hc
    omega
  simp [requestLoop, hres, h429, h5, hs]

/-- One loop step, immediate failure: a non-success status that is not
429 and not a retryable 5xx is classified by raise_for_status on the
attempt that observed it, with no sleep and no further attempt. -/
theorem loopImmediateFailureStep (attempt fuel : Nat) (lastExc : Option NetErr)
    (s : Int) (hdr : Option String) (c : Option Doc)
    (hres : oracle attempt = .response s hdr c)
    (hns : isSuccessStatus s = false)
    (h429 : s ≠ 429)
    (h5 : ¬ (500 ≤ s ∧ attempt < cfg.maxRetries)) :
    requestLoop cfg rid oracle attempt (fuel + 1) lastExc =
      (.exc (raise_for_status s (c.getD []) (some rid)), ⟨1, [], [rid]⟩) := by
  simp [requestLoop, hres, h429, h5, hns]

/-- One loop step, retried connection failure. -/
theorem loopConnStep (attempt fuel : Nat) (lastExc : Option NetErr) (msg : String)
    (hres : oracle attempt = .netErr (.connect msg))
    (hlt : attempt < cfg.maxRetries) :
    requestLoop cfg rid oracle attempt (fuel + 1) lastExc =
      ((requestLoop cfg rid oracle (attempt + 1) fuel (some (.connect msg))).1,
       ⟨(requestLoop cfg rid oracle (attempt + 1) fuel (some (.connect msg))).2.attempts + 1,
        ((2 : Int) ^ attempt) :: (requestLoop cfg rid oracle (attempt + 1) fuel (some (.connect msg))).2.sleeps,
        rid :: (requestLoop cfg rid oracle (attempt + 1) fuel (some (.connect msg))).2.sentIds⟩) := by
  simp [requestLoop, hres, hlt]

/-- One loop step, terminal connection failure. -/
theorem loopConnTerminal (attempt fuel : Nat) (lastExc : Option NetErr) (msg : String)
    (hres : oracle attempt = .netErr (.connect msg))
    (hnlt : ¬ attempt < cfg.maxRetries) :
    requestLoop cfg rid oracle attempt (fuel + 1) lastExc =
      (.exc (.connectionError ("Failed to connect to " ++ cfg.baseUrl ++ ": " ++ msg)
        (some rid)), ⟨1, [], [rid]⟩) := by
  simp [requestLoop, hres, hnlt]

/-- One loop step, retried timeout. -/
theorem loopTimeoutStep (attempt fuel : Nat) (lastExc : Option NetErr) (msg : String)
    (hres : oracle attempt = .netErr (.timeout msg))
    (hlt : attempt < cfg.maxRetries) :
    requestLoop cfg rid oracle attempt (fuel + 1) lastExc =
      ((requestLoop cfg rid oracle (attempt + 1) fuel (some (.timeout msg))).1,
       ⟨(requestLoop cfg rid oracle (attempt + 1) fuel (some (.timeout msg))).2.attempts + 1,
        ((2 : Int) ^ attempt) :: (requestLoop cfg rid oracle (attempt + 1) fuel (some (.timeout msg))).2.sleeps,
        rid :: (requestLoop cfg rid oracle (attempt + 1) fuel (some (.timeout msg))).2.sentIds⟩) := by
  simp [requestLoop, hres, hlt]

/-- One loop step, terminal timeout. -/
theorem loopTimeoutTerminal (attempt fuel : Nat) (lastExc : Option NetErr) (msg : String)
    (hres : oracle attempt = .netErr (.timeout msg))
    (hnlt : ¬ attempt < cfg.maxRetries) :
    requestLoop cfg rid oracle attempt (fuel + 1) lastExc =
      (.exc (.timeoutError ("Request timed out after " ++ toString cfg.timeout ++ "s")
        (some rid)), ⟨1, [], [rid]⟩) := by
  simp [requestLoop, hres, hnlt]

end StepLemmas

/-- raise_for_status always produces a FinWiseAPIError value (never a
transport error, never a fall-through). -/
theorem rfs_classified (s : Int) (body : Doc) (r : Option String) :
    (raise_for_status s body r).isClassifiedExc = true := by
  simp only [raise_for_status]
  split_ifs <;> rfl

/-- raise_for_status passes the request id it is given into the
exception it raises. -/
theorem rfs_ridOf (s : Int) (body : Doc) (r : Option String) :
    (raise_for_status s body r).ridOf = r := by
  simp only [raise_for_status]
  split_ifs <;> rfl

/-- An exception produced by raise_for_status is never the fall-through
outcome of the attempt loop. -/
theorem rfs_not_fallback (s : Int) (body : Doc) (r : Option String) :
    (Outcome.exc (raise_for_status s body r)).isFallbackOutcome = false := by
  simp only [raise_for_status]
  split_ifs <;> rfl

/-- The attempt loop, when every attempt up to the retry budget yields a
429 whose hint parses, performs all max_retries + 1 attempts, sleeping
min(hint, 2 ^ attempt) between attempts, and terminates with the
RateLimitError built from the last response. Stated for every suffix of
the loop (attempt + n = maxRetries). -/
theorem loopAll429 (cfg : ClientConfig) (rid : String) (oracle : Nat → AttemptResult)
    (hdrs : Nat → Option String) (contents : Nat → Option Doc) (hints : Nat → Int)
    (hres : ∀ i, i ≤ cfg.maxRetries → oracle i = .response 429 (hdrs i) (contents i))
    (hparse : ∀ i, i ≤ cfg.maxRetries → pyInt ((hdrs i).getD "1") = some (hints i)) :
    ∀ n attempt lastExc, attempt + n = cfg.maxRetries →
      requestLoop cfg rid oracle attempt (n + 1) lastExc =
        (.exc (.api .rateLimit (.str "Rate limit exceeded") 429 (some rid)
          ((contents cfg.maxRetries).getD []) none (some (.num (hints cfg.maxRetries)))),
         ⟨n + 1, hintSleeps hints attempt n, List.replicate (n + 1) rid⟩) := by
  intro n
  induction n with
  | zero =>
    intro attempt lastExc hsum
    have ha : attempt = cfg.maxRetries := by omega
    rw [loop429Terminal cfg rid oracle attempt 0 lastExc (hdrs attempt) (contents attempt)
      (hints attempt) (hres attempt (by omega)) (hparse attempt (by omega)) (by omega), ha]
    rfl
  | succ k ih =>
    intro attempt lastExc hsum
    have hlt : attempt < cfg.maxRetries := by omega
    rw [loop429Step cfg rid oracle attempt (k + 1) lastExc (hdrs attempt) (contents attempt)
      (hints attempt) (hres attempt (by omega)) (hparse attempt (by omega)) hlt,
      ih (attempt + 1) lastExc (by omega)]
    rfl

/-- The attempt loop, when every attempt up to the retry budget yields
the same 5xx status, performs all max_retries + 1 attempts with sleeps
2 ^ attempt, and on the last attempt falls through to raise_for_status
on the last body. Stated for every suffix of the loop. -/
theorem loopAll5xx (cfg : ClientConfig) (rid : String) (oracle : Nat → AttemptResult)
    (s : Int) (hdrs : Nat → Option String) (contents : Nat → Option Doc)
    (h5 : 500 ≤ s)
    (hres : ∀ i, i ≤ cfg.maxRetries → oracle i = .response s (hdrs i) (contents i)) :
    ∀ n attempt lastExc, attempt + n = cfg.maxRetries →
      requestLoop cfg rid oracle attempt (n + 1) lastExc =
        (.exc (raise_for_status s ((contents cfg.maxRetries).getD []) (some rid)),
         ⟨n + 1, backoffSleeps attempt n, List.replicate (n + 1) rid⟩) := by
  have h429 : s ≠ 429 := by omega
  have hns : isSuccessStatus s = false := by
    have h300 : ¬ (s < 300) := by omega
    simp [isSuccessStatus, h300]
  intro n
  induction n with
  | zero =>
    intro attempt lastExc hsum
    have ha : attempt = cfg.maxRetries := by omega
    rw [loopImmediateFailureStep cfg rid oracle attempt 0 lastExc s (hdrs attempt)
      (contents attempt) (hres attempt (by omega)) hns h429 (by omega), ha]
    rfl
  | succ k ih =>
    intro attempt lastExc hsum
    have hlt : attempt < cfg.maxRetries := by omega
    rw [loopServerRetryStep cfg rid oracle attempt (k + 1) lastExc s (hdrs attempt)
      (contents attempt) (hres attempt (by omega)) h429 h5 hlt,
      ih (attempt + 1) lastExc (by omega)]
    rfl

/-- Invariants of the attempt loop, for every oracle: the fall-through
after the loop is never the outcome, the Request-Id header is sent on
every attempt, and any classified failure carries that request id. -/
theorem loopInvariants (cfg : ClientConfig) (rid : String) (oracle : Nat → AttemptResult) :
    ∀ n attempt lastExc, attempt + n = cfg.maxRetries →
      (requestLoop cfg rid oracle attempt (n + 1) lastExc).1.isFallbackOutcome = false ∧
      (requestLoop cfg rid oracle attempt (n + 1) lastExc).2.sentIds =
        List.replicate (requestLoop cfg rid oracle attempt (n + 1) lastExc).2.attempts rid ∧
      Outcome.ridConsistent (requestLoop cfg rid oracle attempt (n + 1) lastExc).1 rid = true := by
  intro n
  induction n with
  | zero =>
    intro attempt lastExc hsum
    have hnlt : ¬ attempt < cfg.maxRetries := by omega
    cases horacle : oracle attempt with
    | netErr e =>
      cases e with
      | connect msg =>
        rw [loopConnTerminal cfg rid oracle attempt 0 lastExc msg horacle hnlt]
        simp [Outcome.isFallbackOutcome, Outcome.ridConsistent, Exc.isClassifiedExc, Exc.ridOf]
      | timeout msg =>
        rw [loopTimeoutTerminal cfg rid oracle attempt 0 lastExc msg horacle hnlt]
        simp [Outcome.isFallbackOutcome, Outcome.ridConsistent, Exc.isClassifiedExc, Exc.ridOf]
    | response s hdr c =>
      by_cases h429 : s = 429
      · subst h429
        cases hp : pyInt (hdr.getD "1") with
        | none =>
          rw [loop429ValueError cfg rid oracle attempt 0 lastExc hdr c horacle hp]
          simp [Outcome.isFallbackOutcome, Outcome.ridConsistent, Exc.isClassifiedExc]
        | some v =>
          rw [loop429Terminal cfg rid oracle attempt 0 lastExc hdr c v horacle hp hnlt]
          simp [Outcome.isFallbackOutcome, Outcome.ridConsistent, Exc.isClassifiedExc, Exc.ridOf]
      · by_cases hs : isSuccessStatus s
        · rw [loopSuccessStep cfg rid oracle attempt 0 lastExc s hdr c horacle hs]
          simp [Outcome.isFallbackOutcome, Outcome.ridConsistent]
        · rw [loopImmediateFailureStep cfg rid oracle attempt 0 lastExc s hdr c horacle
            (by simpa using hs) h429 (fun hc => hnlt hc.2)]
          simp [rfs_not_fallback, Outcome.ridConsistent, rfs_classified, rfs_ridOf]
  | succ k ih =>
    intro attempt lastExc hsum
    have hlt : attempt < cfg.maxRetries := by omega
    have hsum2 : (attempt + 1) + k = cfg.maxRetries := by omega
    cases horacle : oracle attempt with
    | netErr e =>
      cases e with
      | connect msg =>
        rw [loopConnStep cfg rid oracle attempt (k + 1) lastExc msg horacle hlt]
        obtain ⟨h1, h2, h3⟩ := ih (attempt + 1) (some (.connect msg)) hsum2
        exact ⟨h1, by rw [h2, List.replicate_succ], h3⟩
      | timeout msg =>
        rw [loopTimeoutStep cfg rid oracle attempt (k + 1) lastExc msg horacle hlt]
        obtain ⟨h1, h2, h3⟩ := ih (attempt + 1) (some (.timeout msg)) hsum2
        exact ⟨h1, by rw [h2, List.replicate_succ], h3⟩
    | response s hdr c =>
      by_cases h429 : s = 429
      · subst h429
        cases hp : pyInt (hdr.getD "1") with
        | none =>
          rw [loop429ValueError cfg rid oracle attempt (k + 1) lastExc hdr c horacle hp]
          simp [Outcome.isFallbackOutcome, Outcome.ridConsistent, Exc.isClassifiedExc]
        | some v =>
          rw [loop429Step cfg rid oracle attempt (k + 1) lastExc hdr c v horacle hp hlt]
          obtain ⟨h1, h2, h3⟩ := ih (attempt + 1) lastExc hsum2
          exact ⟨h1, by rw [h2, List.replicate_succ], h3⟩
      · by_cases hs : isSuccessStatus s
        · rw [loopSuccessStep cfg rid oracle attempt (k + 1) lastExc s hdr c horacle hs]
          simp [Outcome.isFallbackOutcome, Outcome.ridConsistent]
        · by_cases h5 : 500 ≤ s
          · rw [loopServerRetryStep cfg rid oracle attempt (k + 1) lastExc s hdr c horacle
              h429 h5 hlt]
            obtain ⟨h1, h2, h3⟩ := ih (attempt + 1) lastExc hsum2
            exact ⟨h1, by rw [h2, List.replicate_succ], h3⟩
          · rw [loopImmediateFailureStep cfg rid oracle attempt (k + 1) lastExc s hdr c horacle
              (by simpa using hs) h429 (fun hc => h5 hc.1)]
            simp [rfs_not_fallback, Outcome.ridConsistent, rfs_classified, rfs_ridOf]

/-- When every 429 hint in reach parses, the attempt loop ends in a
returned document or in exactly one classified failure. -/
theorem loopClassified (cfg : ClientConfig) (rid : String) (oracle : Nat → AttemptResult)
    (hWF : ParsesHints oracle) :
    ∀ n attempt lastExc, attempt + n = cfg.maxRetries →
      (requestLoop cfg rid oracle attempt (n + 1) lastExc).1.isOkDoc = true ∨
      (requestLoop cfg rid oracle attempt (n + 1) lastExc).1.isClassifiedFailure = true := by
  intro n
  induction n with
  | zero =>
    intro attempt lastExc hsum
    have hnlt : ¬ attempt < cfg.maxRetries := by omega
    cases horacle : oracle attempt with
    | netErr e =>
      cases e with
      | connect msg =>
        rw [loopConnTerminal cfg rid oracle attempt 0 lastExc msg horacle hnlt]
        right; rfl
      | timeout msg =>
        rw [loopTimeoutTerminal cfg rid oracle attempt 0 lastExc msg horacle hnlt]
        right; rfl
    | response s hdr c =>
      by_cases h429 : s = 429
      · subst h429
        obtain ⟨v, hp⟩ := Option.isSome_iff_exists.mp (hWF attempt hdr c horacle)
        rw [loop429Terminal cfg rid oracle attempt 0 lastExc hdr c v horacle hp hnlt]
        right; rfl
      · by_cases hs : isSuccessStatus s
        · rw [loopSuccessStep cfg rid oracle attempt 0 lastExc s hdr c horacle hs]
          left; rfl
        · rw [loopImmediateFailureStep cfg rid oracle attempt 0 lastExc s hdr c horacle
            (by simpa using hs) h429 (fun hc => hnlt hc.2)]
          right
          simp [Outcome.isClassifiedFailure, rfs_classified]
  | succ k ih =>
    intro attempt lastExc hsum
    have hlt : attempt < cfg.maxRetries := by omega
    have hsum2 : (attempt + 1) + k = cfg.maxRetries := by omega
    cases horacle : oracle attempt with
    | netErr e =>
      cases e with
      | connect msg =>
        rw [loopConnStep cfg rid oracle attempt (k + 1) lastExc msg horacle hlt]
        exact ih (attempt + 1) (some (.connect msg)) hsum2
      | timeout msg =>
        rw [loopTimeoutStep cfg rid oracle attempt (k + 1) lastExc msg horacle hlt]
        exact ih (attempt + 1) (some (.timeout msg)) hsum2
    | response s hdr c =>
      by_cases h429 : s = 429
      · subst h429
        obtain ⟨v, hp⟩ := Option.isSome_iff_exists.mp (hWF attempt hdr c horacle)
        rw [loop429Step cfg rid oracle attempt (k + 1) lastExc hdr c v horacle hp hlt]
        exact ih (attempt + 1) lastExc hsum2
      · by_cases hs : isSuccessStatus s
        · rw [loopSuccessStep cfg rid oracle attempt (k + 1) lastExc s hdr c horacle hs]
          left; rfl
        · by_cases h5 : 500 ≤ s
          · rw [loopServerRetryStep cfg rid oracle attempt (k + 1) lastExc s hdr c horacle
              h429 h5 hlt]
            exact ih (attempt + 1) lastExc hsum2
          · rw [loopImmediateFailureStep cfg rid oracle attempt (k + 1) lastExc s hdr c horacle
              (by simpa using hs) h429 (fun hc => h5 hc.1)]
            right
            simp [Outcome.isClassifiedFailure, rfs_classified]

/-- raise_for_status classifies every status in 500..599 as ServerError,
with message and error code read from the body. -/
theorem rfs_server (s : Int) (body : Doc) (r : Option String)
    (h5 : 500 ≤ s) (h6 : s < 600) :
    raise_for_status s body r =
      .api .serverError (dictGetD body "message" (.str "Unknown error")) s r body
        (dictGet body "code") none := by
  simp only [raise_for_status]
  split_ifs <;> first | rfl | omega

/-- backoffSleeps from a given start index is the exponential schedule. -/
theorem backoffSleeps_range :
    ∀ (n a : Nat), backoffSleeps a n = (List.range n).map (fun i => (2 : Int) ^ (a + i)) := by
  intro n
  induction n with
  | zero => intro a; rfl
  | succ k ih =>
    intro a
    rw [backoffSleeps, ih (a + 1), List.range_succ_eq_map]
    simp only [List.map_cons, List.map_map, Nat.add_zero]
    refine congrArg (fun l => ((2 : Int) ^ a) :: l) ?_
    refine List.map_congr_left ?_
    intro i _
    simp only [Function.comp]
    congr 1
    omega

/-- Claim C1 as amended: for every maxRetries = N, when every attempt
observes a 429 response whose Retry-After hint int() accepts (an absent
header meaning the default numeral 1), request performs exactly N + 1
network attempts and terminates by raising a RateLimitError whose
retry_after equals the hint parsed from the last, N + 1 th, response.
The parseability condition is forced by the counterexample below: a
non-numeric header aborts the call with an uncaught ValueError. -/
theorem spec_C1 (cfg : ClientConfig) (rid : String) (oracle : Nat → AttemptResult)
    (hdrs : Nat → Option String) (contents : Nat → Option Doc) (hints : Nat → Int)
    (hres : ∀ i, i ≤ cfg.maxRetries → oracle i = .response 429 (hdrs i) (contents i))
    (hparse : ∀ i, i ≤ cfg.maxRetries → pyInt ((hdrs i).getD "1") = some (hints i)) :
    (request cfg rid oracle).2.attempts = cfg.maxRetries + 1 ∧
    (request cfg rid oracle).1 =
      .exc (.api .rateLimit (.str "Rate limit exceeded") 429 (some rid)
        ((contents cfg.maxRetries).getD []) none (some (.num (hints cfg.maxRetries)))) := by
  have h := loopAll429 cfg rid oracle hdrs contents hints hres hparse
    cfg.maxRetries 0 none (by omega)
  rw [request, h]
  exact ⟨rfl, rfl⟩

/-- Claim C1 witness: maxRetries 2, a 429 with Retry-After 5 on every
attempt gives 3 attempts and a RateLimitError with retry_after 5. -/
theorem spec_C1_witness :
    (request cfgW "rid-w1" oracle429W).2.attempts = 3 ∧
    (request cfgW "rid-w1" oracle429W).1 =
      .exc (.api .rateLimit (.str "Rate limit exceeded") 429 (some "rid-w1") docW none
        (some (.num 5))) :=
  spec_C1 cfgW "rid-w1" oracle429W (fun _ => some "5") (fun _ => some docW) (fun _ => 5)
    (fun _ _ => rfl) (fun _ _ => rfl)

/-- Claim C1 counterexample, refuting the claim as frozen: with
maxRetries 2 and a 429 on every attempt (Retry-After header abc on each
of the three attempts in budget), request performs 1 network attempt,
not 3, and raises an uncaught ValueError, not a RateLimit failure: the
int() call at the first 429 aborts the logical call. -/
theorem spec_C1_counterexample :
    cfgW.maxRetries = 2 ∧
    oracleBadHdrW 0 = .response 429 (some "abc") none ∧
    oracleBadHdrW 1 = .response 429 (some "abc") none ∧
    oracleBadHdrW 2 = .response 429 (some "abc") none ∧
    (request cfgW "rid-c1" oracleBadHdrW).2.attempts = 1 ∧
    (request cfgW "rid-c1" oracleBadHdrW).1 = .exc (.valueError "abc") := by
  refine ⟨rfl, rfl, rfl, rfl, by decide, by decide⟩

/-- Claim C2: for every 5xx status (in particular 500, 502 and 503)
observed on every attempt, behavior is identical: maxRetries + 1
attempts with sleeps 1, 2, 4, ..., 2 ^ (maxRetries - 1) after each of
the first maxRetries attempts, no classification on non-terminal
attempts, and the final attempt falls through to normal status
classification, raising ServerError. -/
theorem spec_C2 (cfg : ClientConfig) (rid : String) (oracle : Nat → AttemptResult)
    (s : Int) (hdrs : Nat → Option String) (contents : Nat → Option Doc)
    (h5 : 500 ≤ s) (h6 : s < 600)
    (hres : ∀ i, i ≤ cfg.maxRetries → oracle i = .response s (hdrs i) (contents i)) :
    request cfg rid oracle =
      (.exc (.api .serverError
        (dictGetD ((contents cfg.maxRetries).getD []) "message" (.str "Unknown error"))
        s (some rid) ((contents cfg.maxRetries).getD [])
        (dictGet ((contents cfg.maxRetries).getD []) "code") none),
       ⟨cfg.maxRetries + 1, (List.range cfg.maxRetries).map (fun i => (2 : Int) ^ i),
        List.replicate (cfg.maxRetries + 1) rid⟩) := by
  have h := loopAll5xx cfg rid oracle s hdrs contents h5 hres cfg.maxRetries 0 none (by omega)
  rw [request, h, rfs_server s ((contents cfg.maxRetries).getD []) (some rid) h5 h6,
    backoffSleeps_range cfg.maxRetries 0]
  simp only [Nat.zero_add]

/-- Claim C2 witness: maxRetries 2, a 503 on every attempt gives 3
attempts, sleeps 1 and 2, and a ServerError classified from the last
body. -/
theorem spec_C2_witness :
    request cfgW "rid-w2" oracle503W =
      (.exc (.api .serverError (.str "slow down") 503 (some "rid-w2") docW
        (some (.str "E42")) none),
       ⟨3, [1, 2], ["rid-w2", "rid-w2", "rid-w2"]⟩) := by
  have h := spec_C2 cfgW "rid-w2" oracle503W 503 (fun _ => none) (fun _ => some docW)
    (by decide) (by decide) (fun _ _ => rfl)
  rw [h]
  decide

/-- Claim C3 as amended: for every retry budget and every sequence of
per-attempt results, request produces exactly one outcome (one Outcome
value) and the fall-through after the attempt loop is never reached;
whenever every 429 hint in the sequence is interpretable, that outcome
is a returned response document or exactly one classified failure. The
interpretability condition is forced by the counterexample below: a 429
with a non-numeric header escapes as an unclassified ValueError. -/
theorem spec_C3 (cfg : ClientConfig) (rid : String) (oracle : Nat → AttemptResult) :
    (request cfg rid oracle).1.isFallbackOutcome = false ∧
    (ParsesHints oracle →
      (request cfg rid oracle).1.isOkDoc = true ∨
      (request cfg rid oracle).1.isClassifiedFailure = true) := by
  refine ⟨(loopInvariants cfg rid oracle cfg.maxRetries 0 none (by omega)).1, ?_⟩
  intro hWF
  exact loopClassified cfg rid oracle hWF cfg.maxRetries 0 none (by omega)

/-- Claim C3 witness: with a constant 200 oracle the outcome is a
returned document and never the fall-through. -/
theorem spec_C3_witness :
    (request cfgW "rid-w3" oracle200W).1.isFallbackOutcome = false ∧
    ((request cfgW "rid-w3" oracle200W).1.isOkDoc = true ∨
     (request cfgW "rid-w3" oracle200W).1.isClassifiedFailure = true) :=
  ⟨(spec_C3 cfgW "rid-w3" oracle200W).1,
   (spec_C3 cfgW "rid-w3" oracle200W).2 (fun i hdr c h => by simp [oracle200W] at h)⟩

/-- Claim C3 counterexample, refuting the claim as frozen: a sequence
whose attempts are 429 responses with the non-numeric Retry-After
header abc is in the per-attempt result space of the claim, yet the one
exception escaping the call is a ValueError, which is neither a
returned response document nor a classified failure. -/
theorem spec_C3_counterexample :
    (request cfgW "rid-c3" oracleBadHdrW).1 = .exc (.valueError "abc") ∧
    (request cfgW "rid-c3" oracleBadHdrW).1.isOkDoc = false ∧
    (request cfgW "rid-c3" oracleBadHdrW).1.isClassifiedFailure = false := by
  refine ⟨by decide, by decide, by decide⟩

/-- Claim C4 counterexample: with a non-numeric Retry-After header
(here the string abc) on a 429, the hint does not default to 1:
interpreting the header fails the call, with a single attempt and an
unclassified ValueError escaping, although two retries remained. -/
theorem spec_C4_counterexample :
    pyInt "abc" = none ∧
    (request cfgW "rid-w4" oracleBadHdrW).1 = .exc (.valueError "abc") ∧
    (request cfgW "rid-w4" oracleBadHdrW).2.attempts = 1 ∧
    (request cfgW "rid-w4" oracleBadHdrW).1.isClassifiedFailure = false := by
  refine ⟨by decide, by decide, by decide, by decide⟩

/-- Claim C4 as amended: for every 429 response the retry hint is the
Retry-After header interpreted by int() as an integer count of seconds;
it defaults to 1 only when the header is missing; when the header is
present but non-numeric, int() raises an uncaught ValueError that fails
the call immediately on that attempt (an unclassified failure), at any
attempt index. -/
theorem spec_C4_amended :
    (∀ (cfg : ClientConfig) (rid : String) (oracle : Nat → AttemptResult)
      (fuel : Nat) (lastExc : Option NetErr) (c : Option Doc),
      oracle cfg.maxRetries = .response 429 none c →
      requestLoop cfg rid oracle cfg.maxRetries (fuel + 1) lastExc =
        (.exc (.api .rateLimit (.str "Rate limit exceeded") 429 (some rid) (c.getD []) none
          (some (.num 1))), ⟨1, [], [rid]⟩)) ∧
    (∀ (cfg : ClientConfig) (rid : String) (oracle : Nat → AttemptResult)
      (i fuel : Nat) (lastExc : Option NetErr) (st : String) (c : Option Doc),
      oracle i = .response 429 (some st) c →
      pyInt st = none →
      requestLoop cfg rid oracle i (fuel + 1) lastExc =
        (.exc (.valueError st), ⟨1, [], [rid]⟩)) := by
  constructor
  · intro cfg rid oracle fuel lastExc c hres
    exact loop429Terminal cfg rid oracle cfg.maxRetries fuel lastExc none c 1 hres
      (by decide) (Nat.lt_irrefl _)
  · intro cfg rid oracle i fuel lastExc st c hres hp
    exact loop429ValueError cfg rid oracle i fuel lastExc (some st) c hres hp

/-- Claim C4 amended witness: a missing header on a terminal 429 gives
retry_after 1; the header abc raises ValueError on the first attempt. -/
theorem spec_C4_witness :
    request cfgW0 "rid-w4a" oracleNoHdrW =
      (.exc (.api .rateLimit (.str "Rate limit exceeded") 429 (some "rid-w4a") docW none
        (some (.num 1))), ⟨1, [], ["rid-w4a"]⟩) ∧
    requestLoop cfgW "rid-w4b" oracleBadHdrW 0 1 none =
      (.exc (.valueError "abc"), ⟨1, [], ["rid-w4b"]⟩) :=
  ⟨spec_C4_amended.1 cfgW0 "rid-w4a" oracleNoHdrW 0 none (some docW) rfl,
   spec_C4_amended.2 cfgW "rid-w4b" oracleBadHdrW 0 0 none "abc" none rfl (by decide)⟩

/-- Claim C5: a non-terminal 429 at attempt index i with parsed hint h
sleeps exactly min(h, 2 ^ i) seconds before the next attempt (and
produces no outcome of its own); and a single 429 with hint h on
attempt 0 followed by a 200 yields exactly one sleep of min(h, 1)
seconds, two attempts, and the 200 body as the successful result. -/
theorem spec_C5 :
    (∀ (cfg : ClientConfig) (rid : String) (oracle : Nat → AttemptResult)
      (i fuel : Nat) (lastExc : Option NetErr) (hdr : Option String) (c : Option Doc)
      (h : Int),
      oracle i = .response 429 hdr c →
      pyInt (hdr.getD "1") = some h →
      i < cfg.maxRetries →
      requestLoop cfg rid oracle i (fuel + 1) lastExc =
        ((requestLoop cfg rid oracle (i + 1) fuel lastExc).1,
         ⟨(requestLoop cfg rid oracle (i + 1) fuel lastExc).2.attempts + 1,
          (min h ((2 : Int) ^ i)) :: (requestLoop cfg rid oracle (i + 1) fuel lastExc).2.sleeps,
          rid :: (requestLoop cfg rid oracle (i + 1) fuel lastExc).2.sentIds⟩)) ∧
    (∀ (cfg : ClientConfig) (rid : String) (oracle : Nat → AttemptResult)
      (hdr : Option String) (c : Option Doc) (h : Int) (body : Doc),
      1 ≤ cfg.maxRetries →
      oracle 0 = .response 429 hdr c →
      pyInt (hdr.getD "1") = some h →
      oracle 1 = .response 200 none (some body) →
      request cfg rid oracle = (.ok body, ⟨2, [min h 1], [rid, rid]⟩)) := by
  constructor
  · intro cfg rid oracle i fuel lastExc hdr c h hres hp hlt
    exact loop429Step cfg rid oracle i fuel lastExc hdr c h hres hp hlt
  · intro cfg rid oracle hdr c h body h1 h0 hp h200
    obtain ⟨m, hm⟩ : ∃ m, cfg.maxRetries = m + 1 := ⟨cfg.maxRetries - 1, by omega⟩
    rw [request, hm]
    rw [loop429Step cfg rid oracle 0 (m + 1) none hdr c h h0 hp (by omega)]
    rw [loopSuccessStep cfg rid oracle (0 + 1) m none 200 none (some body) h200 (by decide)]
    have hpow : min h ((2 : Int) ^ (0 : Nat)) = min h 1 := by norm_num
    rw [hpow]
    rfl

/-- Claim C5 witness: a 429 with hint 9 then a 200, with maxRetries 2:
one sleep of min(9, 1) = 1 second, two attempts, the 200 body
returned. -/
theorem spec_C5_witness :
    request cfgW "rid-w5" oracleMixW = (.ok docW, ⟨2, [min 9 1], ["rid-w5", "rid-w5"]⟩) :=
  spec_C5.2 cfgW "rid-w5" oracleMixW (some "9") none 9 docW (by decide) (by decide)
    (by decide) (by decide)

/-- Claim C6: every non-success status other than 429, and other than a
5xx with attempts remaining, fails immediately on the attempt that
observed it, classified by raise_for_status, with no further attempt
and no sleep; in particular a 404 on the first attempt yields a
terminal NotFound failure with zero retries and zero sleep. -/
theorem spec_C6 :
    (∀ (cfg : ClientConfig) (rid : String) (oracle : Nat → AttemptResult)
      (i fuel : Nat) (lastExc : Option NetErr) (s : Int) (hdr : Option String)
      (c : Option Doc),
      oracle i = .response s hdr c →
      isSuccessStatus s = false →
      s ≠ 429 →
      ¬ (500 ≤ s ∧ i < cfg.maxRetries) →
      requestLoop cfg rid oracle i (fuel + 1) lastExc =
        (.exc (raise_for_status s (c.getD []) (some rid)), ⟨1, [], [rid]⟩)) ∧
    (∀ (cfg : ClientConfig) (rid : String) (oracle : Nat → AttemptResult)
      (hdr : Option String) (c : Option Doc),
      oracle 0 = .response 404 hdr c →
      request cfg rid oracle =
        (.exc (.api .notFound (dictGetD (c.getD []) "message" (.str "Unknown error")) 404
          (some rid) (c.getD []) (dictGet (c.getD []) "code") none), ⟨1, [], [rid]⟩)) := by
  constructor
  · intro cfg rid oracle i fuel lastExc s hdr c hres hns h429 h5
    exact loopImmediateFailureStep cfg rid oracle i fuel lastExc s hdr c hres hns h429 h5
  · intro cfg rid oracle hdr c hres
    rw [request]
    rw [loopImmediateFailureStep cfg rid oracle 0 cfg.maxRetries none 404 hdr c hres
      (by decide) (by decide) (fun hc => by omega)]
    rfl

/-- Claim C6 witness: a 404 on the first attempt with maxRetries 2
gives one attempt, no sleep, and a NotFound failure read from the
body. -/
theorem spec_C6_witness :
    request cfgW "rid-w6" oracle404W =
      (.exc (.api .notFound (.str "slow down") 404 (some "rid-w6") docW
        (some (.str "E42")) none), ⟨1, [], ["rid-w6"]⟩) :=
  spec_C6.2 cfgW "rid-w6" oracle404W none (some docW) rfl

/-- Claim C7: raise_for_status refines the status table of the spec:
the kind is given by the table (400 and 422 Validation, 401
Authentication, 403 PermissionDenied, 404 NotFound, 409 Conflict, 429
RateLimit with retryAfter read from the retryAfter key of the document,
500-599 ServerError, anything else the generic APIError), the message
is the message key of the document defaulting to Unknown error, the
error code is the code key; classification is total, also on the empty
or malformed document. -/
theorem spec_C7 (s : Int) (body : Doc) (rid : Option String) :
    raise_for_status s body rid =
      .api (classifierKindSpec s) (dictGetD body "message" (.str "Unknown error")) s rid
        body (dictGet body "code")
        (if s = 429 then dictGet body "retryAfter" else none) := by
  simp only [raise_for_status, classifierKindSpec]
  split_ifs <;> first | rfl | omega

/-- Claim C8: the request id generated once at the start of request is
sent in the headers of every physical attempt of the logical call, and
every classified failure raised by the call carries that same id in its
request_id attribute. -/
theorem spec_C8 (cfg : ClientConfig) (rid : String) (oracle : Nat → AttemptResult) :
    (request cfg rid oracle).2.sentIds =
      List.replicate (request cfg rid oracle).2.attempts rid ∧
    (∀ e, (request cfg rid oracle).1 = .exc e → e.isClassifiedExc = true →
      e.ridOf = some rid) := by
  obtain ⟨h1, h2, h3⟩ := loopInvariants cfg rid oracle cfg.maxRetries 0 none (by omega)
  refine ⟨h2, ?_⟩
  intro e he hcl
  have h4 : Outcome.ridConsistent (Outcome.exc e) rid = true := by
    rw [← he]
    exact h3
  simpa [Outcome.ridConsistent, hcl] using h4

/-- Claim C8 witness: the 404 fixture call sends the id on its one
attempt and its NotFound failure carries the same id. -/
theorem spec_C8_witness :
    (request cfgW "rid-w8" oracle404W).2.sentIds =
      List.replicate (request cfgW "rid-w8" oracle404W).2.attempts "rid-w8" ∧
    (Exc.api .notFound (.str "slow down") 404 (some "rid-w8") docW
      (some (.str "E42")) none).ridOf = some "rid-w8" :=
  ⟨(spec_C8 cfgW "rid-w8" oracle404W).1,
   (spec_C8 cfgW "rid-w8" oracle404W).2
     (.api .notFound (.str "slow down") 404 (some "rid-w8") docW (some (.str "E42")) none)
     (by decide) (by decide)⟩

/-- Claim C9: after close, every subsequent request on the transport is
rejected before any network attempt instead of silently reusing the
released client, and a close on an open transport releases the
underlying pool exactly once. -/
theorem spec_C9 (st : TransportState) (cfg : ClientConfig) (rid : String)
    (oracle : Nat → AttemptResult) :
    transportRequest (transportClose st).1 cfg rid oracle =
      (.exc (.runtimeError "Cannot send a request, as the client has been closed."),
       ⟨0, [], []⟩) ∧
    (st.clientClosed = false → (transportClose st).2 = 1) := by
  constructor
  · by_cases h : st.clientClosed <;>
      simp [transportRequest, transportClose, httpxClose, h]
  · intro h
    simp [transportClose, httpxClose, h]

/-- Claim C9 witness: a fresh transport, closed, rejects a request and
released the pool exactly once. -/
theorem spec_C9_witness :
    transportRequest (transportClose newTransport).1 cfgW "rid-w9" oracle200W =
      (.exc (.runtimeError "Cannot send a request, as the client has been closed."),
       ⟨0, [], []⟩) ∧
    (transportClose newTransport).2 = 1 :=
  ⟨(spec_C9 newTransport cfgW "rid-w9" oracle200W).1,
   (spec_C9 newTransport cfgW "rid-w9" oracle200W).2 rfl⟩

/-- Claim C10: a terminal 429 (budget exhausted) raises a RateLimitError
built inside the retry loop with the fixed message Rate limit exceeded
and retry_after parsed from the Retry-After header of the final
response; the status classifier is not used there, and its own 429
branch would instead read the message from the message key and
retry_after from the retryAfter key of the document. -/
theorem spec_C10 :
    (∀ (cfg : ClientConfig) (rid : String) (oracle : Nat → AttemptResult)
      (fuel : Nat) (lastExc : Option NetErr) (hdr : Option String) (c : Option Doc)
      (h : Int),
      oracle cfg.maxRetries = .response 429 hdr c →
      pyInt (hdr.getD "1") = some h →
      requestLoop cfg rid oracle cfg.maxRetries (fuel + 1) lastExc =
        (.exc (.api .rateLimit (.str "Rate limit exceeded") 429 (some rid) (c.getD []) none
          (some (.num h))), ⟨1, [], [rid]⟩)) ∧
    (∀ (body : Doc) (r : Option String),
      raise_for_status 429 body r =
        .api .rateLimit (dictGetD body "message" (.str "Unknown error")) 429 r body
          (dictGet body "code") (dictGet body "retryAfter")) := by
  constructor
  · intro cfg rid oracle fuel lastExc hdr c h hres hp
    exact loop429Terminal cfg rid oracle cfg.maxRetries fuel lastExc hdr c h hres hp
      (Nat.lt_irrefl _)
  · intro body r
    rfl

/-- Claim C10 witness: on the fixture document, the loop-built failure
has message Rate limit exceeded and retry_after 5 from the header,
while the classifier at 429 reads slow down and 7 from the document. -/
theorem spec_C10_witness :
    requestLoop cfgW "rid-wa" oracle429W cfgW.maxRetries 1 none =
      (.exc (.api .rateLimit (.str "Rate limit exceeded") 429 (some "rid-wa") docW none
        (some (.num 5))), ⟨1, [], ["rid-wa"]⟩) ∧
    raise_for_status 429 docW (some "rid-wa") =
      .api .rateLimit (.str "slow down") 429 (some "rid-wa") docW (some (.str "E42"))
        (some (.num 7)) :=
  ⟨spec_C10.1 cfgW "rid-wa" oracle429W 0 none (some "5") (some docW) 5 rfl rfl,
   spec_C10.2 docW (some "rid-wa")⟩

end FinWise
